import Mathlib

/-!
Shallow embedding of the message-search service (`src/app/main.py`):
an in-memory cache of records, a case-insensitive substring matcher,
and a paginated search endpoint with a refetch-on-empty-cache fallback.
-/

namespace Aurora

/-- A scalar-or-null field value of a record (string, number, boolean, or null). -/
inductive Value where
  | vNull : Value
  | vStr : String → Value
  | vInt : Int → Value
  | vBool : Bool → Value
deriving DecidableEq, Repr

/-- A record is an open-ended mapping from field name to value,
embedded as an association list (iteration order = insertion order). -/
abbrev Record := List (String × Value)

/-- Python's `str(value)` rendering of a field value. -/
def pyStr : Value → String
  | .vNull => "None"
  | .vStr s => s
  | .vInt n => toString n
  | .vBool true => "True"
  | .vBool false => "False"

/-- Lowercasing of a string, as a list of characters (`s.lower()`). -/
def lowerChars (s : String) : List Char := s.data.map Char.toLower

/--
Matching predicate `record_matches_query(record, q)` from
`src/app/main.py`: return `True`
if `q` is empty; otherwise scan the record's values, skip `None`, and
return `True` as soon as the lowercased query occurs as a contiguous
substring (Python `in`) of the lowercased `str(value)`.
-/
def record_matches_query (record : Record) (q : String) : Bool :=
  if q = "" then true
  else
    let q_lower := lowerChars q
    record.any fun kv =>
      match kv.2 with
      | .vNull => false
      | v => decide (q_lower <:+: lowerChars (pyStr v))

/-- The JSON body of the HTTP response returned by the endpoint, mirroring
the `SearchResponse` pydantic model. -/
structure SearchResponse where
  query : String
  page : Nat
  page_size : Nat
  total : Nat
  total_pages : Nat
  results : List Record
deriving DecidableEq, Repr

/-- Outcome of one invocation of `fetch_messages_from_source` as seen by the
`/search` handler: either a list of records, or a raised exception. -/
inductive FetchOutcome where
  | ok : List Record → FetchOutcome
  | failed : FetchOutcome
deriving DecidableEq, Repr

/-- Outcome of one `/search` request: either an `HTTPException` with status
code and detail, or a 200 response. -/
inductive SearchResult where
  | httpError : Nat → String → SearchResult
  | ok : SearchResponse → SearchResult
deriving DecidableEq, Repr

/-- The fallback block at the top of `search_messages`: when the cache is
empty the handler refetches; on success the cache becomes the fetched
items, on failure it is set to `[]`. A non-empty cache is left untouched. -/
def refreshedCache (cache : List Record) (fetch : FetchOutcome) : List Record :=
  if cache = [] then
    match fetch with
    | .ok items => items
    | .failed => []
  else cache

/-- The filtering comprehension
`[m for m in messages_cache if record_matches_query(m, q)]`. -/
def filteredRecords (cache : List Record) (q : String) : List Record :=
  cache.filter fun m => record_matches_query m q

/-- Pagination arithmetic
`total_pages = (total + page_size - 1) // page_size if total > 0 else 1`. -/
def pagesFor (total page_size : Nat) : Nat :=
  if total > 0 then (total + page_size - 1) / page_size else 1

/--
The `/search` handler from `src/app/main.py`, as a pure function of the
cache contents, the outcome the upstream fetch would have (used only on the
refetch-on-empty path), and the validated query parameters. Returns the
cache contents after the request together with the HTTP result.
-/
def search_messages (cache : List Record) (fetch : FetchOutcome)
    (q : String) (page page_size : Nat) : List Record × SearchResult :=
  let cache' := refreshedCache cache fetch
  let filtered := filteredRecords cache' q
  let total := filtered.length
  let total_pages := pagesFor total page_size
  if page > total_pages ∧ total > 0 then
    (cache', .httpError 400 "Page number out of range")
  else
    let start := (page - 1) * page_size
    (cache', .ok ⟨q, page, page_size, total, total_pages,
      (filtered.drop start).take page_size⟩)

/-- Decoded upstream JSON. -/
inductive Json where
  | null : Json
  | bool : Bool → Json
  | num : Int → Json
  | str : String → Json
  | arr : List Json → Json
  | obj : List (String × Json) → Json

/-- Whether Python `len(x)` is defined on a decoded JSON value: strings,
lists and dicts support `len`; `None`, booleans and numbers raise
`TypeError`. -/
def pyLenDefined : Json → Bool
  | .str _ => true
  | .arr _ => true
  | .obj _ => true
  | _ => false

/--
The response-shape normalization of `fetch_messages_from_source`
(`src/app/main.py`), applied to the decoded JSON body. When `data` is an
object containing the key `"items"`, the log line eagerly evaluates
`len(items)` before `return items`, so the call returns the items value
only when that value supports `len` and raises `TypeError` otherwise;
a bare array is returned as is (its `len` is defined); every other shape
returns the empty sequence.
-/
def fetch_messages_from_source (data : Json) : Except Unit Json :=
  match data with
  | .obj fields =>
      match List.lookup "items" fields with
      | some items => if pyLenDefined items then .ok items else .error ()
      | none => .ok (.arr [])
  | .arr _ => .ok data
  | _ => .ok (.arr [])

/-! ## Matching -/

lemma matchBranch_eq_true_iff (q : String) (v : Value) :
    (match v with
      | .vNull => false
      | v => decide (lowerChars q <:+: lowerChars (pyStr v))) = true ↔
      v ≠ Value.vNull ∧ lowerChars q <:+: lowerChars (pyStr v) := by
  cases v <;> simp

/-- C1: `record_matches_query` returns `true` unconditionally when the query
is empty, and otherwise returns `true` iff the lowercased query is a
substring of the lowercased string rendering of at least one non-null field
value of the record. -/
theorem record_matches_query_spec (record : Record) (q : String) :
    record_matches_query record q = true ↔
      (q = "" ∨ ∃ kv ∈ record, kv.2 ≠ Value.vNull ∧
        lowerChars q <:+: lowerChars (pyStr kv.2)) := by
  unfold record_matches_query
  by_cases hq : q = ""
  · simp [hq]
  · rw [if_neg hq, List.any_eq_true]
    simp only [hq, false_or]
    exact exists_congr fun kv => and_congr_right fun _ => matchBranch_eq_true_iff q kv.2

/-- C8: matching is case-insensitive — two non-empty queries with the same
lowercasing give identical results on every record. -/
theorem record_matches_query_case_insensitive (record : Record) (q₁ q₂ : String)
    (h₁ : q₁ ≠ "") (h₂ : q₂ ≠ "") (h : lowerChars q₁ = lowerChars q₂) :
    record_matches_query record q₁ = record_matches_query record q₂ := by
  unfold record_matches_query
  rw [if_neg h₁, if_neg h₂, h]

/-- Witness for C8 at the spec's example pair of queries. -/
theorem record_matches_query_case_insensitive_witness :
    record_matches_query [("text", Value.vStr "xABCy")] "ABC" =
      record_matches_query [("text", Value.vStr "xABCy")] "abc" :=
  record_matches_query_case_insensitive [("text", Value.vStr "xABCy")]
    "ABC" "abc" (by decide) (by decide) (by decide)

/-! ## Search: basic inversion -/

lemma search_messages_fst (cache : List Record) (fetch : FetchOutcome)
    (q : String) (page page_size : Nat) :
    (search_messages cache fetch q page page_size).1 = refreshedCache cache fetch := by
  unfold search_messages
  dsimp only
  split <;> rfl

lemma search_messages_snd (cache : List Record) (fetch : FetchOutcome)
    (q : String) (page page_size : Nat) :
    (search_messages cache fetch q page page_size).2 =
      if page > pagesFor (filteredRecords (refreshedCache cache fetch) q).length page_size ∧
          (filteredRecords (refreshedCache cache fetch) q).length > 0 then
        .httpError 400 "Page number out of range"
      else
        .ok ⟨q, page, page_size, (filteredRecords (refreshedCache cache fetch) q).length,
          pagesFor (filteredRecords (refreshedCache cache fetch) q).length page_size,
          ((filteredRecords (refreshedCache cache fetch) q).drop
            ((page - 1) * page_size)).take page_size⟩ := by
  unfold search_messages
  dsimp only
  split <;> rfl

lemma search_ok_inv (cache : List Record) (fetch : FetchOutcome) (q : String)
    (page page_size : Nat) (resp : SearchResponse)
    (h : (search_messages cache fetch q page page_size).2 = SearchResult.ok resp) :
    ¬(page > pagesFor (filteredRecords (refreshedCache cache fetch) q).length page_size ∧
        (filteredRecords (refreshedCache cache fetch) q).length > 0) ∧
    resp = ⟨q, page, page_size, (filteredRecords (refreshedCache cache fetch) q).length,
      pagesFor (filteredRecords (refreshedCache cache fetch) q).length page_size,
      ((filteredRecords (refreshedCache cache fetch) q).drop
        ((page - 1) * page_size)).take page_size⟩ := by
  rw [search_messages_snd] at h
  split at h
  · exact absurd h (by simp)
  · rename_i hc
    exact ⟨hc, by injection h with h; exact h.symm⟩

/-! ## Pagination metadata -/

/-- C2: on every successful search, `total` is the size of the filtered
(matching) set — not of the full cache — and `total_pages` is
`⌈total / page_size⌉` when `total > 0`, and `1` when `total = 0`. -/
theorem search_total_pages_ceil (cache : List Record) (fetch : FetchOutcome)
    (q : String) (page page_size : Nat) (resp : SearchResponse)
    (h : (search_messages cache fetch q page page_size).2 = SearchResult.ok resp) :
    resp.total = (filteredRecords (refreshedCache cache fetch) q).length ∧
    (0 < resp.total → resp.total_pages = resp.total ⌈/⌉ page_size) ∧
    (resp.total = 0 → resp.total_pages = 1) := by
  obtain ⟨-, rfl⟩ := search_ok_inv cache fetch q page page_size resp h
  refine ⟨rfl, fun ht => ?_, fun ht => ?_⟩
  · show pagesFor _ _ = _
    rw [pagesFor, if_pos ht]
    rfl
  · have ht' : (filteredRecords (refreshedCache cache fetch) q).length = 0 := ht
    show pagesFor _ _ = 1
    rw [pagesFor, if_neg (by simp [ht'])]

/-- Witness for C2: the empty-cache search succeeds and its metadata
satisfies the ceiling invariant. -/
theorem search_total_pages_ceil_witness :
    (⟨"", 1, 20, 0, 1, []⟩ : SearchResponse).total =
        (filteredRecords (refreshedCache [] FetchOutcome.failed) "").length ∧
      (0 < (⟨"", 1, 20, 0, 1, []⟩ : SearchResponse).total →
        (⟨"", 1, 20, 0, 1, []⟩ : SearchResponse).total_pages =
          (⟨"", 1, 20, 0, 1, []⟩ : SearchResponse).total ⌈/⌉ 20) ∧
      ((⟨"", 1, 20, 0, 1, []⟩ : SearchResponse).total = 0 →
        (⟨"", 1, 20, 0, 1, []⟩ : SearchResponse).total_pages = 1) :=
  search_total_pages_ceil [] FetchOutcome.failed "" 1 20 ⟨"", 1, 20, 0, 1, []⟩ (by decide)

/-- C3: a search yields the HTTP 400 out-of-range error iff the filtered
set is non-empty and the requested page exceeds `total_pages`; and whenever
the filtered set is empty, every requested page succeeds with an empty
result slice (`total = 0`, `total_pages = 1`). -/
theorem search_out_of_range_iff (cache : List Record) (fetch : FetchOutcome)
    (q : String) (page page_size : Nat) :
    ((search_messages cache fetch q page page_size).2 =
        SearchResult.httpError 400 "Page number out of range" ↔
      0 < (filteredRecords (refreshedCache cache fetch) q).length ∧
        pagesFor (filteredRecords (refreshedCache cache fetch) q).length page_size < page) ∧
    ((filteredRecords (refreshedCache cache fetch) q).length = 0 →
      ∀ page' : Nat, (search_messages cache fetch q page' page_size).2 =
        SearchResult.ok ⟨q, page', page_size, 0, 1, []⟩) := by
  constructor
  · rw [search_messages_snd]
    split
    · rename_i hc
      exact iff_of_true rfl ⟨hc.2, hc.1⟩
    · rename_i hc
      constructor
      · intro h
        exact absurd h (by simp)
      · intro h2
        exact absurd ⟨h2.2, h2.1⟩ hc
  · intro h0 page'
    have hnil : filteredRecords (refreshedCache cache fetch) q = [] :=
      List.length_eq_zero.mp h0
    rw [search_messages_snd, hnil]
    simp [pagesFor]

/-- C7: with an empty cache and a failing synchronous refetch, the search
does not propagate the fetch error: the cache is set to the empty sequence
and the request succeeds with `total = 0`, `total_pages = 1`, and an empty
result slice. -/
theorem search_empty_cache_failed_fetch (q : String) (page page_size : Nat) :
    search_messages [] FetchOutcome.failed q page page_size =
      ([], SearchResult.ok ⟨q, page, page_size, 0, 1, []⟩) := by
  have h1 : (search_messages [] FetchOutcome.failed q page page_size).1 = [] :=
    search_messages_fst [] FetchOutcome.failed q page page_size
  have hf : filteredRecords (refreshedCache [] FetchOutcome.failed) q = [] := rfl
  have h2 : (search_messages [] FetchOutcome.failed q page page_size).2 =
      SearchResult.ok ⟨q, page, page_size, 0, 1, []⟩ := by
    rw [search_messages_snd, hf]
    simp [pagesFor]
  calc search_messages [] FetchOutcome.failed q page page_size
      = ((search_messages [] FetchOutcome.failed q page page_size).1,
         (search_messages [] FetchOutcome.failed q page page_size).2) := rfl
    _ = ([], SearchResult.ok ⟨q, page, page_size, 0, 1, []⟩) := by rw [h1, h2]

/-- C10: a search that starts from a non-empty cache leaves the cache
contents unchanged — the refetch path is taken only on an empty cache. -/
theorem search_preserves_nonempty_cache (cache : List Record) (fetch : FetchOutcome)
    (q : String) (page page_size : Nat) (h : cache ≠ []) :
    (search_messages cache fetch q page page_size).1 = cache := by
  rw [search_messages_fst]
  unfold refreshedCache
  rw [if_neg h]

/-- Witness for C10 on a one-record cache. -/
theorem search_preserves_nonempty_cache_witness :
    (search_messages [[("id", Value.vInt 1)]] FetchOutcome.failed "x" 1 20).1 =
      [[("id", Value.vInt 1)]] :=
  search_preserves_nonempty_cache [[("id", Value.vInt 1)]] FetchOutcome.failed
    "x" 1 20 (by decide)

/-! ## Filtering preserves order: the spec's worked scenario -/

def demoRecord1 : Record := [("id", .vInt 1), ("text", .vStr "Hello World")]

def demoRecord2 : Record := [("id", .vInt 2), ("text", .vStr "foo bar")]

def demoRecord3 : Record := [("id", .vInt 3), ("text", .vStr "HELLO again")]

def demoCache : List Record := [demoRecord1, demoRecord2, demoRecord3]

/-- C5: filtering applies the matcher over the full cached sequence keeping
the original relative order (the filtered set is a sublist of the cache),
and on the spec's three-record scenario the query `"hello"` with `page = 1`,
`page_size = 20` returns `total = 2`, `total_pages = 1`, and the records
with ids 1 and 3 in that order. -/
theorem search_filter_order_example :
    (∀ (cache : List Record) (q : String), List.Sublist (filteredRecords cache q) cache) ∧
    (∀ (cache : List Record) (q : String), filteredRecords cache q =
      cache.filter fun m => record_matches_query m q) ∧
    (search_messages demoCache FetchOutcome.failed "hello" 1 20).2 =
      SearchResult.ok ⟨"hello", 1, 20, 2, 1, [demoRecord1, demoRecord3]⟩ := by
  refine ⟨fun cache q => List.filter_sublist _, fun _ _ => rfl, by decide⟩

/-! ## Pagination partitions the filtered sequence -/

/-- The result slice carried by a search outcome (empty on an error). -/
def searchResults : SearchResult → List Record
  | .ok resp => resp.results
  | .httpError _ _ => []

lemma flatten_chunks {α : Type} (L : List α) (ps : Nat) (n : Nat) :
    ((List.range n).map fun i => (L.drop (i * ps)).take ps).flatten = L.take (n * ps) := by
  induction n with
  | zero => simp
  | succ n ih =>
      rw [List.range_succ, List.map_append, List.flatten_append, ih]
      simp only [List.map_cons, List.map_nil, List.flatten_cons, List.flatten_nil,
        List.append_nil]
      rw [Nat.succ_mul, List.take_add]

/-- C4: with a non-empty filtered set and a page size in `[1, 100]`, every
page `1 .. total_pages` succeeds with the slice
`filtered[(page-1)*page_size : page*page_size]`, and concatenating those
slices in page order yields exactly the filtered sequence — no gaps, no
overlaps, no reordering. -/
theorem search_pages_concat (cache : List Record) (fetch : FetchOutcome)
    (q : String) (page_size : Nat) (hps1 : 1 ≤ page_size) (hps2 : page_size ≤ 100)
    (ht : 0 < (filteredRecords (refreshedCache cache fetch) q).length) :
    (∀ i, i < pagesFor (filteredRecords (refreshedCache cache fetch) q).length page_size →
      (search_messages cache fetch q (i + 1) page_size).2 = SearchResult.ok
        ⟨q, i + 1, page_size, (filteredRecords (refreshedCache cache fetch) q).length,
          pagesFor (filteredRecords (refreshedCache cache fetch) q).length page_size,
          ((filteredRecords (refreshedCache cache fetch) q).drop
            (i * page_size)).take page_size⟩) ∧
    ((List.range (pagesFor (filteredRecords (refreshedCache cache fetch) q).length
        page_size)).map
      fun i => searchResults (search_messages cache fetch q (i + 1) page_size).2).flatten =
      filteredRecords (refreshedCache cache fetch) q := by
  have hpage_ok : ∀ i,
      i < pagesFor (filteredRecords (refreshedCache cache fetch) q).length page_size →
      (search_messages cache fetch q (i + 1) page_size).2 = SearchResult.ok
        ⟨q, i + 1, page_size, (filteredRecords (refreshedCache cache fetch) q).length,
          pagesFor (filteredRecords (refreshedCache cache fetch) q).length page_size,
          ((filteredRecords (refreshedCache cache fetch) q).drop
            (i * page_size)).take page_size⟩ := by
    intro i hi
    rw [search_messages_snd]
    rw [if_neg (fun hcontra => absurd hcontra.1 (by omega))]
    norm_num
  refine ⟨hpage_ok, ?_⟩
  have hmap : (List.range (pagesFor
        (filteredRecords (refreshedCache cache fetch) q).length page_size)).map
      (fun i => searchResults (search_messages cache fetch q (i + 1) page_size).2) =
      (List.range (pagesFor
        (filteredRecords (refreshedCache cache fetch) q).length page_size)).map
      fun i => ((filteredRecords (refreshedCache cache fetch) q).drop
        (i * page_size)).take page_size := by
    apply List.map_congr_left
    intro i hi
    rw [hpage_ok i (List.mem_range.mp hi)]
    rfl
  rw [hmap, flatten_chunks]
  apply List.take_of_length_le
  have h2 : pagesFor (filteredRecords (refreshedCache cache fetch) q).length page_size =
      (filteredRecords (refreshedCache cache fetch) q).length ⌈/⌉ page_size := by
    rw [pagesFor, if_pos ht]
    rfl
  have h1 : (filteredRecords (refreshedCache cache fetch) q).length ≤
      page_size • ((filteredRecords (refreshedCache cache fetch) q).length ⌈/⌉ page_size) :=
    le_smul_ceilDiv (by omega)
  rw [smul_eq_mul] at h1
  rw [h2, Nat.mul_comm]
  exact h1

/-- Witness for C4: on the spec's three-record scenario with `page_size = 1`
the two page slices concatenate back to the filtered sequence. -/
theorem search_pages_concat_witness :
    ((List.range (pagesFor (filteredRecords (refreshedCache demoCache
        FetchOutcome.failed) "hello").length 1)).map
      fun i => searchResults
        (search_messages demoCache FetchOutcome.failed "hello" (i + 1) 1).2).flatten =
      filteredRecords (refreshedCache demoCache FetchOutcome.failed) "hello" :=
  (search_pages_concat demoCache FetchOutcome.failed "hello" 1
    (by decide) (by decide) (by decide)).2

/-- C9: every successful search returns at most `page_size` results, and
when the filtered set is non-empty every valid page carries at least one
record. -/
theorem search_valid_page_results (cache : List Record) (fetch : FetchOutcome)
    (q : String) (page page_size : Nat) (hpage : 1 ≤ page) (hps : 1 ≤ page_size)
    (resp : SearchResponse)
    (h : (search_messages cache fetch q page page_size).2 = SearchResult.ok resp) :
    resp.results.length ≤ page_size ∧ (0 < resp.total → resp.results ≠ []) := by
  obtain ⟨hc, rfl⟩ := search_ok_inv cache fetch q page page_size resp h
  constructor
  · show (((filteredRecords (refreshedCache cache fetch) q).drop
        ((page - 1) * page_size)).take page_size).length ≤ page_size
    rw [List.length_take]
    exact min_le_left _ _
  · intro ht
    have ht' : 0 < (filteredRecords (refreshedCache cache fetch) q).length := ht
    have hle : page ≤ pagesFor (filteredRecords (refreshedCache cache fetch) q).length
        page_size := by
      by_contra hgt
      exact hc ⟨by omega, ht'⟩
    rw [pagesFor, if_pos ht'] at hle
    have hmul : page * page_size ≤
        (filteredRecords (refreshedCache cache fetch) q).length + page_size - 1 :=
      (Nat.le_div_iff_mul_le (by omega)).mp hle
    have hps_le : page_size ≤ page * page_size := by
      calc page_size = 1 * page_size := (Nat.one_mul _).symm
        _ ≤ page * page_size := Nat.mul_le_mul_right _ hpage
    have hstart : (page - 1) * page_size <
        (filteredRecords (refreshedCache cache fetch) q).length := by
      rw [Nat.sub_one_mul]
      generalize page * page_size = X at hmul hps_le
      omega
    show ((filteredRecords (refreshedCache cache fetch) q).drop
        ((page - 1) * page_size)).take page_size ≠ []
    rw [← List.length_pos, List.length_take, List.length_drop]
    exact lt_min (by omega) (by omega)

/-- Witness for C9 on a one-record cache with the default page parameters. -/
theorem search_valid_page_results_witness :
    (⟨"", 1, 20, 1, 1, [[("id", Value.vInt 7)]]⟩ : SearchResponse).results.length ≤ 20 ∧
      (0 < (⟨"", 1, 20, 1, 1, [[("id", Value.vInt 7)]]⟩ : SearchResponse).total →
        (⟨"", 1, 20, 1, 1, [[("id", Value.vInt 7)]]⟩ : SearchResponse).results ≠ []) :=
  search_valid_page_results [[("id", Value.vInt 7)]] FetchOutcome.failed "" 1 20
    (by decide) (by decide) ⟨"", 1, 20, 1, 1, [[("id", Value.vInt 7)]]⟩ (by decide)

/-! ## Upstream response shapes -/

lemma lookup_eq_none_of_not_mem_keys (key : String) (fields : List (String × Json))
    (h : key ∉ fields.map Prod.fst) : List.lookup key fields = none := by
  induction fields with
  | nil => rfl
  | cons kv rest ih =>
      obtain ⟨k, v⟩ := kv
      simp only [List.map_cons, List.mem_cons, not_or] at h
      have hne : (key == k) = false := by simpa using h.1
      simp [List.lookup, hne, ih h.2]

/-- Counterexample to C6 as frozen: the decoded response `{"items": 5}` is
an object containing a field named `items`, yet the fetcher does not return
the items value — the eager `len(items)` raises `TypeError`, so the fetch
fails. -/
theorem fetch_messages_from_source_counterexample :
    List.lookup "items" [("items", Json.num 5)] = some (Json.num 5) ∧
      fetch_messages_from_source (Json.obj [("items", Json.num 5)]) =
        Except.error () :=
  ⟨rfl, rfl⟩

/-- C6 (amended): the fetcher returns the value of the `items` field when
the decoded response is an object containing one and that value supports
`len` (a string, array or object), raises `TypeError` when the items value
is null, a boolean or a number, returns the response itself when it is a
bare array, and returns the empty sequence — without raising — for every
other shape (object without `items`, null, boolean, number, or string). -/
theorem fetch_messages_from_source_shapes :
    (∀ (fields : List (String × Json)) (v : Json),
        List.lookup "items" fields = some v → pyLenDefined v = true →
        fetch_messages_from_source (Json.obj fields) = Except.ok v) ∧
    (∀ (fields : List (String × Json)) (v : Json),
        List.lookup "items" fields = some v → pyLenDefined v = false →
        fetch_messages_from_source (Json.obj fields) = Except.error ()) ∧
    (∀ elems : List Json,
        fetch_messages_from_source (Json.arr elems) = Except.ok (Json.arr elems)) ∧
    (∀ fields : List (String × Json),
        "items" ∉ fields.map Prod.fst →
        fetch_messages_from_source (Json.obj fields) = Except.ok (Json.arr [])) ∧
    fetch_messages_from_source Json.null = Except.ok (Json.arr []) ∧
    (∀ b : Bool, fetch_messages_from_source (Json.bool b) = Except.ok (Json.arr [])) ∧
    (∀ n : Int, fetch_messages_from_source (Json.num n) = Except.ok (Json.arr [])) ∧
    (∀ s : String, fetch_messages_from_source (Json.str s) = Except.ok (Json.arr [])) := by
  refine ⟨?_, ?_, fun _ => rfl, ?_, rfl, fun _ => rfl, fun _ => rfl, fun _ => rfl⟩
  · intro fields v hv hlen
    show (match List.lookup "items" fields with
      | some items => if pyLenDefined items then Except.ok items else Except.error ()
      | none => Except.ok (Json.arr [])) = Except.ok v
    rw [hv]
    simp only [hlen, if_true]
  · intro fields v hv hlen
    show (match List.lookup "items" fields with
      | some items => if pyLenDefined items then Except.ok items else Except.error ()
      | none => Except.ok (Json.arr [])) = Except.error ()
    rw [hv]
    simp only [hlen]
    rfl
  · intro fields hmem
    show (match List.lookup "items" fields with
      | some items => if pyLenDefined items then Except.ok items else Except.error ()
      | none => Except.ok (Json.arr [])) = Except.ok (Json.arr [])
    rw [lookup_eq_none_of_not_mem_keys "items" fields hmem]

end Aurora
